import Mathlib

/-!
Verification of the pdf-tools serverless handlers (merge, split, compress,
rotate).  The handlers are sequential orchestration around an object store
and a PDF library; we embed them as pure functions over an explicit storage
environment.  Each handler returns the list of storage events it performed
(reads, writes, signed-URL issuances) together with either a thrown fault
(`Except.error`, an unhandled rejection in the JS source) or the HTTP
response it built.
-/

/-- A page of an in-memory decoded PDF document.  `content` abstracts the
page's graphical content (opaque to the handlers); `rotation` is the page's
rotation angle in degrees, a plain number in pdf-lib (`getRotation().angle`),
not normalized to any range. -/
structure Page where
  content : Nat
  rotation : ℚ
deriving DecidableEq

/-- An in-memory decoded PDF document: its ordered sequence of pages
(pdf-lib `PDFDocument`). -/
abbrev Document := List Page

/-- Faults that abort a handler: a missing object or interrupted read on the
store, or source bytes that are not a well-formed PDF.  In the JS source
these are thrown exceptions; no handler catches them. -/
inductive Fault where
  | notFound
  | ioError
  | decodeError
deriving DecidableEq

/-- A byte buffer holding a serialized PDF.  `doc = some d` means the bytes
are a well-formed encoding of document `d` (so `PDFDocument.load` succeeds
and yields `d`); `doc = none` means the bytes are malformed.  `size` is the
buffer's byte length. -/
structure Blob where
  doc : Option Document
  size : Nat
deriving DecidableEq

/-- The opaque serialization behavior of the PDF library: the byte length
produced by `pdf.save()` and by `pdf.save({ useObjectStreams: true })`
(the compress path).  Both serializations faithfully encode the document. -/
structure PdfLib where
  saveSize : Document → Nat
  saveCompactSize : Document → Nat

/-- `PDFDocument.load(buffer)`: decodes bytes into a document, throwing a
decode fault on malformed bytes. -/
def pdfLoad (pdfBuffer : Blob) : Except Fault Document :=
  match pdfBuffer.doc with
  | some d => .ok d
  | none => .error .decodeError

/-- `pdf.save()`: serializes a document to bytes whose length is determined
by the library. -/
def pdfSave (lib : PdfLib) (doc : Document) : Blob :=
  ⟨some doc, lib.saveSize doc⟩

/-- `pdf.getPageIndices()`: the array `[0, 1, ..., pageCount - 1]`. -/
def getPageIndices (doc : Document) : List Nat :=
  List.range doc.length

/-- `dest.copyPages(src, indices)`: independent copies of the pages of `src`
at the given indices, in the given order.  Copies are value copies; the
source document is not mutated. -/
def copyPages (src : Document) (indices : List Nat) : List Page :=
  indices.filterMap (fun i => src[i]?)

/-- One storage interaction performed by a handler: an object read
(`GetObjectCommand`), an object write (`PutObjectCommand`, recording the
bytes written), or a signed-URL issuance (`getSignedUrl`). -/
inductive S3Event where
  | getOb (key : String)
  | putOb (key : String) (body : Blob)
  | signUrl (key : String)
deriving DecidableEq

/-- The storage backend as seen by one invocation: reading a key yields its
bytes or a fault (`downloadPdfFromS3` incl. `streamToBuffer`), writing may
fault, and signing a key yields the pre-signed URL string. -/
structure S3Env where
  get : String → Except Fault Blob
  put : String → Blob → Except Fault Unit
  sign : String → String

/-- The stored objects (key and bytes) among a trace of storage events. -/
def storedObjects (trace : List S3Event) : List (String × Blob) :=
  trace.filterMap fun e =>
    match e with
    | .putOb key body => some (key, body)
    | _ => none

/-- The fixed cross-origin header set returned by `corsHeaders()` in every
handler file. -/
def corsHeaders : List (String × String) :=
  [("Access-Control-Allow-Origin", "*"),
   ("Access-Control-Allow-Headers", "Content-Type"),
   ("Access-Control-Allow-Methods", "POST, OPTIONS")]

/-- The result entry for one split page: `{ pageNumber, downloadUrl,
outputKey }` as returned by `uploadPageToS3`. -/
structure PageResult where
  pageNumber : Nat
  downloadUrl : String
  outputKey : String
deriving DecidableEq

/-- The JSON body of a handler response (after `JSON.stringify`). -/
inductive RespBody where
  | errorMsg (error : String)
  | mergeSuccess (message downloadUrl outputKey : String)
  | splitSuccess (message : String) (pageCount : Nat) (pages : List PageResult)
  | compressSuccess (message downloadUrl outputKey originalSize compressedSize : String)
      (savedPercent : Int)
  | rotateSuccess (message downloadUrl outputKey : String) (pageCount : Nat) (rotation : ℚ)
deriving DecidableEq

/-- A handler response: status code, headers and JSON body. -/
structure HttpResponse where
  statusCode : Nat
  headers : List (String × String)
  body : RespBody
deriving DecidableEq

/-- A 400 validation response, as built inline by every handler. -/
def errResponse (msg : String) : HttpResponse :=
  ⟨400, corsHeaders, .errorMsg msg⟩

/-- `uploadPdfToS3(pdfBytes, outputKey)` from the merge function: put the
object, and only if the put succeeded, issue a signed URL for the same key.
A failed put propagates its fault with no signed URL issued. -/
def uploadPdfToS3 (env : S3Env) (pdfBytes : Blob) (outputKey : String) :
    List S3Event × Except Fault String :=
  match env.put outputKey pdfBytes with
  | .error e => ([.putOb outputKey pdfBytes], .error e)
  | .ok _ => ([.putOb outputKey pdfBytes, .signUrl outputKey], .ok (env.sign outputKey))

/-- The body of a merge request after `JSON.parse`: `fileKeys` is the list
of source keys; `none` models the field being absent, `null` or `undefined`
(the falsy non-array cases of `!fileKeys`). -/
structure MergeBody where
  fileKeys : Option (List String)

/-- The `for (const fileKey of fileKeys)` merge loop: download each source,
decode it, copy all of its pages and append them to the accumulated merged
document.  A download or decode fault aborts the loop and propagates. -/
def mergeLoop (env : S3Env) : List String → Document → List S3Event × Except Fault Document
  | [], mergedPdf => ([], .ok mergedPdf)
  | fileKey :: rest, mergedPdf =>
    match env.get fileKey with
    | .error e => ([.getOb fileKey], .error e)
    | .ok pdfBuffer =>
      match pdfLoad pdfBuffer with
      | .error e => ([.getOb fileKey], .error e)
      | .ok pdf =>
        let copiedPages := copyPages pdf (getPageIndices pdf)
        match mergeLoop env rest (mergedPdf ++ copiedPages) with
        | (tr, r) => (.getOb fileKey :: tr, r)

/-- The merge handler: validate that at least 2 file keys were supplied,
merge all sources in the order given, save, upload under
`processed/merged-<timestamp>.pdf` and respond 200 with the signed URL.
`now` models `Date.now()`. -/
def mergeHandler (env : S3Env) (lib : PdfLib) (now : Nat) (body : MergeBody) :
    List S3Event × Except Fault HttpResponse :=
  match body.fileKeys with
  | none => ([], .ok (errResponse "Please provide at least 2 PDF files to merge"))
  | some fileKeys =>
    if fileKeys.length < 2 then
      ([], .ok (errResponse "Please provide at least 2 PDF files to merge"))
    else
      match mergeLoop env fileKeys [] with
      | (tr, .error e) => (tr, .error e)
      | (tr, .ok mergedPdf) =>
        let mergedPdfBytes := pdfSave lib mergedPdf
        let outputKey := s!"processed/merged-{now}.pdf"
        match uploadPdfToS3 env mergedPdfBytes outputKey with
        | (tr2, .error e) => (tr ++ tr2, .error e)
        | (tr2, .ok downloadUrl) =>
          (tr ++ tr2, .ok ⟨200, corsHeaders,
            .mergeSuccess "PDFs merged successfully" downloadUrl outputKey⟩)

/-- The body of a split request: the single source key.  `none` models a
missing/falsy `fileKey`; the empty string is also falsy in JS and is checked
separately in the handlers. -/
structure SplitBody where
  fileKey : Option String

/-- The output key for one split page:
`processed/split-<timestamp>-page-<pageNumber>.pdf`. -/
def splitPageKey (timestamp pageNumber : Nat) : String :=
  s!"processed/split-{timestamp}-page-{pageNumber}.pdf"

/-- `uploadPageToS3(pageBytes, pageNumber, timestamp)`: put one extracted
page under its unique key, then (only on success) sign it and return the
page result record. -/
def uploadPageToS3 (env : S3Env) (pageBytes : Blob) (pageNumber timestamp : Nat) :
    List S3Event × Except Fault PageResult :=
  let outputKey := splitPageKey timestamp pageNumber
  match env.put outputKey pageBytes with
  | .error e => ([.putOb outputKey pageBytes], .error e)
  | .ok _ =>
    ([.putOb outputKey pageBytes, .signUrl outputKey],
     .ok ⟨pageNumber, env.sign outputKey, outputKey⟩)

/-- The `for (let i = 0; i < pageCount; i++)` split loop over the given page
indices: for each index, build a fresh document holding a copy of that page
alone, serialize it, and upload it as page number `i + 1`.  An upload fault
aborts the loop and propagates. -/
def splitLoop (env : S3Env) (lib : PdfLib) (pdf : Document) (timestamp : Nat) :
    List Nat → List S3Event × Except Fault (List PageResult)
  | [] => ([], .ok [])
  | i :: rest =>
    let copiedPages := copyPages pdf [i]
    let singlePagePdf : Document := [] ++ copiedPages
    let pageBytes := pdfSave lib singlePagePdf
    match uploadPageToS3 env pageBytes (i + 1) timestamp with
    | (tr, .error e) => (tr, .error e)
    | (tr, .ok pageResult) =>
      match splitLoop env lib pdf timestamp rest with
      | (tr2, .error e) => (tr ++ tr2, .error e)
      | (tr2, .ok restResults) => (tr ++ tr2, .ok (pageResult :: restResults))

/-- The split handler: validate the key, download and decode the source,
require at least 2 pages, then split every page into its own stored one-page
document and respond 200 with the per-page results. -/
def splitHandler (env : S3Env) (lib : PdfLib) (timestamp : Nat) (body : SplitBody) :
    List S3Event × Except Fault HttpResponse :=
  match body.fileKey with
  | none => ([], .ok (errResponse "Please provide a PDF file to split"))
  | some fileKey =>
    if fileKey.isEmpty then
      ([], .ok (errResponse "Please provide a PDF file to split"))
    else
      match env.get fileKey with
      | .error e => ([.getOb fileKey], .error e)
      | .ok pdfBuffer =>
        match pdfLoad pdfBuffer with
        | .error e => ([.getOb fileKey], .error e)
        | .ok pdf =>
          let pageCount := pdf.length
          if pageCount < 2 then
            ([.getOb fileKey], .ok (errResponse "PDF must have at least 2 pages to split"))
          else
            match splitLoop env lib pdf timestamp (List.range pageCount) with
            | (tr, .error e) => (.getOb fileKey :: tr, .error e)
            | (tr, .ok pages) =>
              (.getOb fileKey :: tr, .ok ⟨200, corsHeaders,
                .splitSuccess s!"PDF split into {pageCount} pages successfully" pageCount pages⟩)

/-- JavaScript `Math.round(x)`: round half toward positive infinity,
i.e. `floor(x + 0.5)`. -/
def jsRound (x : ℚ) : Int := (x + 1 / 2).floor

/-- Rendering of a number with one decimal digit, modelling JS
`toFixed(1)` on the non-negative values produced by `formatBytes`. -/
def toFixed1 (q : ℚ) : String :=
  s!"{jsRound (q * 10) / 10}.{jsRound (q * 10) % 10}"

/-- `formatBytes(bytes)` from the compress function: a human readable
"2.4 MB" / "340 KB" / "12 B" string. -/
def formatBytes (bytes : Nat) : String :=
  if bytes < 1024 then s!"{bytes} B"
  else if bytes < 1024 * 1024 then toFixed1 ((bytes : ℚ) / 1024) ++ " KB"
  else toFixed1 ((bytes : ℚ) / (1024 * 1024)) ++ " MB"

/-- `compressPdf(pdfBuffer)`: load the document (with `ignoreEncryption`)
and re-serialize it with `useObjectStreams: true`.  The output bytes encode
the same document; only the byte length changes, as determined by the
library. -/
def compressPdf (lib : PdfLib) (pdfBuffer : Blob) : Except Fault Blob :=
  match pdfLoad pdfBuffer with
  | .error e => .error e
  | .ok pdf => .ok ⟨some pdf, lib.saveCompactSize pdf⟩

/-- `uploadCompressedPdfToS3` from the compress function — same put-then-sign
pattern as the merge function's `uploadPdfToS3`. -/
def uploadCompressedPdfToS3 (env : S3Env) (pdfBytes : Blob) (outputKey : String) :
    List S3Event × Except Fault String :=
  match env.put outputKey pdfBytes with
  | .error e => ([.putOb outputKey pdfBytes], .error e)
  | .ok _ => ([.putOb outputKey pdfBytes, .signUrl outputKey], .ok (env.sign outputKey))

/-- The body of a compress request: the single source key. -/
structure CompressBody where
  fileKey : Option String

/-- The compress handler: validate the key, download the source together
with its declared size (`response.ContentLength`), re-serialize it
compactly, compute the rounded percentage saved (clamped to 0 in the
response), upload and respond 200. -/
def compressHandler (env : S3Env) (lib : PdfLib) (now : Nat) (body : CompressBody) :
    List S3Event × Except Fault HttpResponse :=
  match body.fileKey with
  | none => ([], .ok (errResponse "Please provide a PDF file to compress"))
  | some fileKey =>
    if fileKey.isEmpty then
      ([], .ok (errResponse "Please provide a PDF file to compress"))
    else
      match env.get fileKey with
      | .error e => ([.getOb fileKey], .error e)
      | .ok pdfBuffer =>
        let originalSize := pdfBuffer.size
        match compressPdf lib pdfBuffer with
        | .error e => ([.getOb fileKey], .error e)
        | .ok compressedBytes =>
          let compressedSize := compressedBytes.size
          let savedPercent := jsRound ((1 - (compressedSize : ℚ) / (originalSize : ℚ)) * 100)
          let outputKey := s!"processed/compressed-{now}.pdf"
          match uploadCompressedPdfToS3 env compressedBytes outputKey with
          | (tr, .error e) => (.getOb fileKey :: tr, .error e)
          | (tr, .ok downloadUrl) =>
            (.getOb fileKey :: tr, .ok ⟨200, corsHeaders,
              .compressSuccess "PDF compressed successfully" downloadUrl outputKey
                (formatBytes originalSize) (formatBytes compressedSize)
                (if savedPercent > 0 then savedPercent else 0)⟩)

/-- A JSON value as it may appear in the `rotation` field of a rotate
request body after `JSON.parse`: a (finite) number, a string, a boolean,
`null`, or absent (`undefined`). -/
inductive JSValue where
  | num (q : ℚ)
  | str (s : String)
  | boolv (b : Bool)
  | nullv
  | undef
deriving DecidableEq

/-- JavaScript `Number(v)` coercion on such a value; `none` models `NaN`.
String-to-number conversion is the platform's, supplied as `strToNum`
(a string that fails numeric coercion maps to `none`). -/
def jsToNumber (strToNum : String → Option ℚ) : JSValue → Option ℚ
  | .num q => some q
  | .str s => strToNum s
  | .boolv b => some (if b then 1 else 0)
  | .nullv => some 0
  | .undef => none

/-- The `validAngles` array of the rotate function. -/
def validAngles : List ℚ := [90, -90, 180]

/-- `validateRotation(angle)`: `validAngles.includes(Number(angle))`.
`includes` finds no match for `NaN` since `validAngles` holds no `NaN`. -/
def validateRotation (strToNum : String → Option ℚ) (angle : JSValue) : Bool :=
  match jsToNumber strToNum angle with
  | some n => decide (n ∈ validAngles)
  | none => false

/-- The `pages.forEach` rotate loop: for every page set its rotation to
`getRotation().angle + rotationAngle` — accumulating on top of any
pre-existing rotation, with no normalization of the sum. -/
def rotatePages (doc : Document) (rotationAngle : ℚ) : Document :=
  doc.map fun page => ⟨page.content, page.rotation + rotationAngle⟩

/-- `uploadRotatedPdfToS3` from the rotate function — same put-then-sign
pattern as the other upload helpers. -/
def uploadRotatedPdfToS3 (env : S3Env) (pdfBytes : Blob) (outputKey : String) :
    List S3Event × Except Fault String :=
  match env.put outputKey pdfBytes with
  | .error e => ([.putOb outputKey pdfBytes], .error e)
  | .ok _ => ([.putOb outputKey pdfBytes, .signUrl outputKey], .ok (env.sign outputKey))

/-- The body of a rotate request: the source key and the requested rotation
value (any JSON value; validated by the handler). -/
structure RotateBody where
  fileKey : Option String
  rotation : JSValue

/-- The rotate handler: validate the key, then the rotation value; coerce
the rotation to a number, download and decode the source, add the angle to
every page's rotation, save, upload and respond 200.  `rotationAngle` is
defined via `getD 0`; validation guarantees the coercion succeeded. -/
def rotateHandler (strToNum : String → Option ℚ) (env : S3Env) (lib : PdfLib)
    (now : Nat) (body : RotateBody) : List S3Event × Except Fault HttpResponse :=
  match body.fileKey with
  | none => ([], .ok (errResponse "Please provide a PDF file to rotate"))
  | some fileKey =>
    if fileKey.isEmpty then
      ([], .ok (errResponse "Please provide a PDF file to rotate"))
    else if !(validateRotation strToNum body.rotation) then
      ([], .ok (errResponse "Invalid rotation. Must be 90, -90, or 180 degrees"))
    else
      let rotationAngle := (jsToNumber strToNum body.rotation).getD 0
      match env.get fileKey with
      | .error e => ([.getOb fileKey], .error e)
      | .ok pdfBuffer =>
        match pdfLoad pdfBuffer with
        | .error e => ([.getOb fileKey], .error e)
        | .ok pdf =>
          let pages := rotatePages pdf rotationAngle
          let rotatedPdfBytes := pdfSave lib pages
          let outputKey := s!"processed/rotated-{now}.pdf"
          match uploadRotatedPdfToS3 env rotatedPdfBytes outputKey with
          | (tr, .error e) => (.getOb fileKey :: tr, .error e)
          | (tr, .ok downloadUrl) =>
            (.getOb fileKey :: tr, .ok ⟨200, corsHeaders,
              .rotateSuccess s!"PDF rotated {rotationAngle} degrees successfully"
                downloadUrl outputKey pages.length rotationAngle⟩)

deriving instance DecidableEq for Except

/-! Concrete fixtures used by the witness theorems below. -/

/-- A sample page whose pre-existing rotation is 270 degrees. -/
def samplePageA : Page := ⟨0, 270⟩

/-- A sample page whose pre-existing rotation is 0 degrees. -/
def samplePageB : Page := ⟨1, 0⟩

/-- A sample two-page document. -/
def sampleDoc : Document := [samplePageA, samplePageB]

/-- A sample one-page document. -/
def sampleDocB : Document := [⟨2, 90⟩]

/-- A sample library serialization-size model. -/
def sampleLib : PdfLib := ⟨fun d => d.length + 3, fun d => d.length + 1⟩

/-- A library serialization-size model whose compact save is larger than the
10-byte stored originals below (compression grows the file). -/
def sampleLibGrow : PdfLib := ⟨fun d => d.length + 3, fun _ => 15⟩

/-- A storage environment where every key resolves (key "b" to the one-page
document, every other key to the two-page document) and writes succeed. -/
def sampleEnv : S3Env :=
  ⟨fun k => if k = "b" then .ok ⟨some sampleDocB, 8⟩ else .ok ⟨some sampleDoc, 10⟩,
   fun _ _ => .ok (),
   fun k => "https://signed/" ++ k⟩

/-- A storage environment where every key resolves to the one-page document. -/
def sampleEnvOnePage : S3Env :=
  ⟨fun _ => .ok ⟨some sampleDocB, 8⟩, fun _ _ => .ok (), fun k => "https://signed/" ++ k⟩

/-- A storage environment whose writes all fail with an I/O fault. -/
def sampleEnvFailPut : S3Env :=
  ⟨fun _ => .ok ⟨some sampleDoc, 10⟩, fun _ _ => .error .ioError, fun k => "https://signed/" ++ k⟩

/-- A string-to-number coercion under which no string is numeric. -/
def sampleStrToNum : String → Option ℚ := fun _ => none

/-! Helper lemmas. -/

/-- Copying all page indices of a document reproduces the document. -/
theorem copyPages_getPageIndices (doc : Document) :
    copyPages doc (getPageIndices doc) = doc := by
  induction doc with
  | nil => rfl
  | cons p rest ih =>
    simp only [copyPages, getPageIndices] at ih ⊢
    rw [List.length_cons, List.range_succ_eq_map, List.filterMap_cons]
    simp only [List.getElem?_cons_zero, List.filterMap_map, Function.comp_def,
      List.getElem?_cons_succ]
    rw [ih]

/-- The merge loop over keys that all resolve to well-formed documents
reads each key in order and appends the concatenation of their pages. -/
theorem mergeLoop_ok (env : S3Env) {keys : List String} {docs : List Document}
    (h : List.Forall₂ (fun k d => ∃ n, env.get k = .ok ⟨some d, n⟩) keys docs) :
    ∀ acc, mergeLoop env keys acc = (keys.map S3Event.getOb, .ok (acc ++ docs.flatten)) := by
  induction h with
  | nil => intro acc; simp [mergeLoop]
  | cons hkd _ ih =>
    intro acc
    obtain ⟨n, hget⟩ := hkd
    simp [mergeLoop, hget, pdfLoad, copyPages_getPageIndices, ih, List.append_assoc]

/-- C1: for every merge request with N ≥ 2 valid source documents, the
produced output document is exactly the concatenation of the input page
sequences in the order of `fileKeys` (each input's internal page order
preserved), and its page count is the sum of the input page counts. -/
theorem merge_concatenates_pages (env : S3Env) (lib : PdfLib) (now : Nat)
    (keys : List String) (docs : List Document)
    (hN : 2 ≤ keys.length)
    (hfetch : List.Forall₂ (fun k d => ∃ n, env.get k = .ok ⟨some d, n⟩) keys docs)
    (hput : env.put s!"processed/merged-{now}.pdf" (pdfSave lib docs.flatten) = .ok ()) :
    mergeHandler env lib now ⟨some keys⟩ =
      (keys.map S3Event.getOb ++
        [.putOb s!"processed/merged-{now}.pdf" (pdfSave lib docs.flatten),
         .signUrl s!"processed/merged-{now}.pdf"],
       .ok ⟨200, corsHeaders,
         .mergeSuccess "PDFs merged successfully"
           (env.sign s!"processed/merged-{now}.pdf") s!"processed/merged-{now}.pdf"⟩) ∧
    docs.flatten.length = (docs.map List.length).sum := by
  refine ⟨?_, by simp⟩
  have hloop := mergeLoop_ok env hfetch []
  simp only [List.nil_append] at hloop
  simp [mergeHandler, Nat.not_lt.mpr hN, hloop, uploadPdfToS3, hput]

/-- C1 witness: merging the two-page document at key "a" with the one-page
document at key "b" yields the three pages in order. -/
theorem merge_concatenates_pages_witness :
    mergeHandler sampleEnv sampleLib 5 ⟨some ["a", "b"]⟩ =
      ([.getOb "a", .getOb "b",
        .putOb "processed/merged-5.pdf" ⟨some [⟨0, 270⟩, ⟨1, 0⟩, ⟨2, 90⟩], 6⟩,
        .signUrl "processed/merged-5.pdf"],
       .ok ⟨200, corsHeaders,
         .mergeSuccess "PDFs merged successfully"
           "https://signed/processed/merged-5.pdf" "processed/merged-5.pdf"⟩) ∧
    (3 : Nat) = 3 :=
  merge_concatenates_pages sampleEnv sampleLib 5 ["a", "b"] [sampleDoc, sampleDocB]
    (by decide) (.cons ⟨10, rfl⟩ (.cons ⟨8, rfl⟩ .nil)) rfl

/-- The split loop over any index list, when every write succeeds: each
index yields one put of the one-page copy under its page key followed by a
signed URL, and one result record numbered `i + 1`. -/
theorem splitLoop_ok (env : S3Env) (lib : PdfLib) (pdf : Document) (ts : Nat)
    (hput : ∀ key pageBytes, env.put key pageBytes = .ok ()) (is : List Nat) :
    splitLoop env lib pdf ts is =
      ((is.map fun i =>
          [S3Event.putOb (splitPageKey ts (i + 1)) (pdfSave lib (copyPages pdf [i])),
           S3Event.signUrl (splitPageKey ts (i + 1))]).flatten,
       .ok (is.map fun i =>
          (⟨i + 1, env.sign (splitPageKey ts (i + 1)), splitPageKey ts (i + 1)⟩ : PageResult))) := by
  induction is with
  | nil => simp [splitLoop]
  | cons i rest ih => simp [splitLoop, uploadPageToS3, hput, ih]

/-- The stored objects of the flattened put-and-sign trace of the split
loop: exactly one object per index. -/
theorem storedObjects_splitTrace (lib : PdfLib) (pdf : Document) (ts : Nat) (is : List Nat) :
    storedObjects ((is.map fun i =>
        [S3Event.putOb (splitPageKey ts (i + 1)) (pdfSave lib (copyPages pdf [i])),
         S3Event.signUrl (splitPageKey ts (i + 1))]).flatten) =
      is.map fun i => (splitPageKey ts (i + 1), pdfSave lib (copyPages pdf [i])) := by
  induction is with
  | nil => rfl
  | cons i rest ih => simp [storedObjects, List.filterMap_append] at ih ⊢; rw [ih]

/-- C2: for every split request on a D-page source with D ≥ 2 (and all
writes succeeding), the handler stores exactly D output objects, the
response's pages list carries pageNumber values exactly 1..D ascending with
no duplicates or gaps, and each stored output document holds exactly one
page — the copy of the source page at index pageNumber - 1. -/
theorem split_produces_single_pages (env : S3Env) (lib : PdfLib) (ts : Nat)
    (k : String) (pdf : Document) (n : Nat)
    (hk : k.isEmpty = false)
    (hget : env.get k = .ok ⟨some pdf, n⟩)
    (hD : 2 ≤ pdf.length)
    (hput : ∀ key pageBytes, env.put key pageBytes = .ok ()) :
    splitHandler env lib ts ⟨some k⟩ =
      (.getOb k :: ((List.range pdf.length).map fun i =>
          [S3Event.putOb (splitPageKey ts (i + 1)) (pdfSave lib (copyPages pdf [i])),
           S3Event.signUrl (splitPageKey ts (i + 1))]).flatten,
       .ok ⟨200, corsHeaders,
         .splitSuccess s!"PDF split into {pdf.length} pages successfully" pdf.length
           ((List.range pdf.length).map fun i =>
             (⟨i + 1, env.sign (splitPageKey ts (i + 1)), splitPageKey ts (i + 1)⟩ : PageResult))⟩) ∧
    storedObjects ((splitHandler env lib ts ⟨some k⟩).1) =
      ((List.range pdf.length).map fun i =>
        (splitPageKey ts (i + 1), pdfSave lib (copyPages pdf [i]))) ∧
    (storedObjects ((splitHandler env lib ts ⟨some k⟩).1)).length = pdf.length ∧
    ((List.range pdf.length).map fun i =>
        (⟨i + 1, env.sign (splitPageKey ts (i + 1)), splitPageKey ts (i + 1)⟩ : PageResult)).map
      PageResult.pageNumber = List.range' 1 pdf.length ∧
    ∀ i, (h : i < pdf.length) → copyPages pdf [i] = [pdf.get ⟨i, h⟩] := by
  have hmain : splitHandler env lib ts ⟨some k⟩ =
      (.getOb k :: ((List.range pdf.length).map fun i =>
          [S3Event.putOb (splitPageKey ts (i + 1)) (pdfSave lib (copyPages pdf [i])),
           S3Event.signUrl (splitPageKey ts (i + 1))]).flatten,
       .ok ⟨200, corsHeaders,
         .splitSuccess s!"PDF split into {pdf.length} pages successfully" pdf.length
           ((List.range pdf.length).map fun i =>
             (⟨i + 1, env.sign (splitPageKey ts (i + 1)), splitPageKey ts (i + 1)⟩ : PageResult))⟩) := by
    simp [splitHandler, hk, hget, pdfLoad, Nat.not_lt.mpr hD,
      splitLoop_ok env lib pdf ts hput]
  refine ⟨hmain, ?_, ?_, ?_, ?_⟩
  · rw [hmain]
    simpa [storedObjects] using storedObjects_splitTrace lib pdf ts (List.range pdf.length)
  · rw [hmain]
    have h2 := storedObjects_splitTrace lib pdf ts (List.range pdf.length)
    simp only [storedObjects] at h2 ⊢
    simp [h2]
  · rw [List.map_map, List.range'_eq_map_range]
    exact List.map_congr_left fun i _ => by simp [Nat.add_comm]
  · intro i h
    simp [copyPages, List.getElem?_eq_getElem h]

/-- C2 witness: splitting the two-page document at key "a" stores two
one-page documents and reports page numbers 1 and 2. -/
theorem split_produces_single_pages_witness :
    splitHandler sampleEnv sampleLib 7 ⟨some "a"⟩ =
      ([.getOb "a",
        .putOb "processed/split-7-page-1.pdf" ⟨some [⟨0, 270⟩], 4⟩,
        .signUrl "processed/split-7-page-1.pdf",
        .putOb "processed/split-7-page-2.pdf" ⟨some [⟨1, 0⟩], 4⟩,
        .signUrl "processed/split-7-page-2.pdf"],
       .ok ⟨200, corsHeaders,
         .splitSuccess "PDF split into 2 pages successfully" 2
           [⟨1, "https://signed/processed/split-7-page-1.pdf", "processed/split-7-page-1.pdf"⟩,
            ⟨2, "https://signed/processed/split-7-page-2.pdf", "processed/split-7-page-2.pdf"⟩]⟩) :=
  (split_produces_single_pages sampleEnv sampleLib 7 "a" sampleDoc 10 rfl rfl (by decide)
    (fun _ _ => rfl)).1

/-- C3: for every valid rotate request with delta in {90, -90, 180}, the
stored output document's per-page rotation angles are exactly the input
angles plus delta — accumulated with no normalization into 0..359 (the
rotated document is `rotatePages pdf q`, whose angles are `rotation + q`
verbatim). -/
theorem rotate_adds_delta_without_normalization (strToNum : String → Option ℚ)
    (env : S3Env) (lib : PdfLib) (now : Nat) (k : String) (rot : JSValue)
    (q : ℚ) (pdf : Document) (n : Nat)
    (hk : k.isEmpty = false)
    (hnum : jsToNumber strToNum rot = some q)
    (hq : q = 90 ∨ q = -90 ∨ q = 180)
    (hget : env.get k = .ok ⟨some pdf, n⟩)
    (hput : env.put s!"processed/rotated-{now}.pdf" (pdfSave lib (rotatePages pdf q)) = .ok ()) :
    rotateHandler strToNum env lib now ⟨some k, rot⟩ =
      ([.getOb k,
        .putOb s!"processed/rotated-{now}.pdf" (pdfSave lib (rotatePages pdf q)),
        .signUrl s!"processed/rotated-{now}.pdf"],
       .ok ⟨200, corsHeaders,
         .rotateSuccess s!"PDF rotated {q} degrees successfully"
           (env.sign s!"processed/rotated-{now}.pdf") s!"processed/rotated-{now}.pdf"
           pdf.length q⟩) ∧
    (rotatePages pdf q).map Page.rotation = pdf.map fun page => page.rotation + q := by
  have hvalid : validateRotation strToNum rot = true := by
    unfold validateRotation
    rw [hnum]
    simp [validAngles]
    rcases hq with h | h | h <;> simp [h]
  refine ⟨?_, by simp [rotatePages]⟩
  simp [rotateHandler, hk, hvalid, hnum, hget, pdfLoad, uploadRotatedPdfToS3, hput]
  simp [rotatePages]

/-- C3 witness: rotating the document whose pages sit at 270 and 0 degrees
by 180 yields pages at 450 and 180 degrees — no wrap-around at 360. -/
theorem rotate_adds_delta_without_normalization_witness :
    (rotateHandler sampleStrToNum sampleEnv sampleLib 5 ⟨some "a", .num 180⟩ =
      ([.getOb "a",
        .putOb "processed/rotated-5.pdf" (pdfSave sampleLib (rotatePages sampleDoc 180)),
        .signUrl "processed/rotated-5.pdf"],
       .ok ⟨200, corsHeaders,
         .rotateSuccess "PDF rotated 180 degrees successfully"
           "https://signed/processed/rotated-5.pdf" "processed/rotated-5.pdf" 2 180⟩) ∧
      (rotatePages sampleDoc 180).map Page.rotation = sampleDoc.map fun page => page.rotation + 180) ∧
    (rotatePages sampleDoc 180).map Page.rotation = [450, 180] :=
  ⟨rotate_adds_delta_without_normalization sampleStrToNum sampleEnv sampleLib 5 "a"
      (.num 180) 180 sampleDoc 10 rfl rfl (by norm_num) rfl rfl,
   by simp [rotatePages, sampleDoc, samplePageA, samplePageB]; norm_num⟩

/-- C4: rotation composes additively — applying the rotate transform with
angle a and then with angle b yields, on every page, the same rotation as a
single rotate transform with angle a + b, for a, b in {90, -90, 180}. -/
theorem rotate_composes_additively (a b : ℚ)
    (_ha : a = 90 ∨ a = -90 ∨ a = 180) (_hb : b = 90 ∨ b = -90 ∨ b = 180)
    (doc : Document) :
    rotatePages (rotatePages doc a) b = rotatePages doc (a + b) := by
  simp only [rotatePages, List.map_map]
  exact List.map_congr_left fun page _ => by simp [Function.comp, add_assoc]

/-- C4 witness: rotating the sample document by 90 and then again by 90
equals a single rotation by 90 + 90 = 180. -/
theorem rotate_composes_additively_witness :
    rotatePages (rotatePages sampleDoc 90) 90 = rotatePages sampleDoc (90 + 90) ∧
    rotatePages sampleDoc ((90 : ℚ) + 90) = rotatePages sampleDoc 180 :=
  ⟨rotate_composes_additively 90 90 (Or.inl rfl) (Or.inl rfl) sampleDoc,
   by norm_num⟩

/-- C5: every successful compress response reports a savedPercent that is
an integer ≥ 0; whenever the rounded savings `Math.round((1 - c/o) * 100)`
is not positive (in particular when the compressed size is at least the
original size), the reported savedPercent is exactly 0, never negative. -/
theorem compress_savedPercent_nonnegative (env : S3Env) (lib : PdfLib) (now : Nat)
    (k : String) (pdf : Document) (os : Nat)
    (hk : k.isEmpty = false)
    (hget : env.get k = .ok ⟨some pdf, os⟩)
    (hput : env.put s!"processed/compressed-{now}.pdf"
      ⟨some pdf, lib.saveCompactSize pdf⟩ = .ok ()) :
    compressHandler env lib now ⟨some k⟩ =
      ([.getOb k,
        .putOb s!"processed/compressed-{now}.pdf" ⟨some pdf, lib.saveCompactSize pdf⟩,
        .signUrl s!"processed/compressed-{now}.pdf"],
       .ok ⟨200, corsHeaders,
         .compressSuccess "PDF compressed successfully"
           (env.sign s!"processed/compressed-{now}.pdf") s!"processed/compressed-{now}.pdf"
           (formatBytes os) (formatBytes (lib.saveCompactSize pdf))
           (if jsRound ((1 - (lib.saveCompactSize pdf : ℚ) / (os : ℚ)) * 100) > 0
            then jsRound ((1 - (lib.saveCompactSize pdf : ℚ) / (os : ℚ)) * 100) else 0)⟩) ∧
    0 ≤ (if jsRound ((1 - (lib.saveCompactSize pdf : ℚ) / (os : ℚ)) * 100) > 0
         then jsRound ((1 - (lib.saveCompactSize pdf : ℚ) / (os : ℚ)) * 100) else 0) ∧
    (jsRound ((1 - (lib.saveCompactSize pdf : ℚ) / (os : ℚ)) * 100) ≤ 0 →
      (if jsRound ((1 - (lib.saveCompactSize pdf : ℚ) / (os : ℚ)) * 100) > 0
       then jsRound ((1 - (lib.saveCompactSize pdf : ℚ) / (os : ℚ)) * 100) else 0) = 0) := by
  refine ⟨?_, ?_, ?_⟩
  · simp [compressHandler, hk, hget, compressPdf, pdfLoad, uploadCompressedPdfToS3, hput]
  · split <;> omega
  · intro h
    rw [if_neg (by omega)]

/-- C5 witness: compressing the 10-byte original into a 15-byte output
(compression grew the file, rounded savings -50) reports savedPercent 0. -/
theorem compress_savedPercent_nonnegative_witness :
    compressHandler sampleEnv sampleLibGrow 5 ⟨some "a"⟩ =
      ([.getOb "a",
        .putOb "processed/compressed-5.pdf" ⟨some sampleDoc, 15⟩,
        .signUrl "processed/compressed-5.pdf"],
       .ok ⟨200, corsHeaders,
         .compressSuccess "PDF compressed successfully"
           "https://signed/processed/compressed-5.pdf" "processed/compressed-5.pdf"
           "10 B" "15 B"
           (if jsRound ((1 - (15 : ℚ) / (10 : ℚ)) * 100) > 0
            then jsRound ((1 - (15 : ℚ) / (10 : ℚ)) * 100) else 0)⟩) ∧
    jsRound ((1 - (15 : ℚ) / (10 : ℚ)) * 100) = -50 ∧
    (if jsRound ((1 - (15 : ℚ) / (10 : ℚ)) * 100) > 0
     then jsRound ((1 - (15 : ℚ) / (10 : ℚ)) * 100) else 0) = 0 :=
  ⟨(compress_savedPercent_nonnegative sampleEnv sampleLibGrow 5 "a" sampleDoc 10
      rfl rfl rfl).1,
   by norm_num [jsRound, Rat.floor],
   by norm_num [jsRound, Rat.floor]⟩

/-- C6: a merge request with fewer than 2 file keys returns the 400
validation response with an explanatory error and performs no storage
interaction at all; a split request whose (well-formed) source document has
fewer than 2 pages returns the 400 validation response having performed
only the source read — no object is written and no transform output is
produced in either case. -/
theorem validation_precedes_storage_work :
    (∀ (env : S3Env) (lib : PdfLib) (now : Nat) (keys : List String),
      keys.length < 2 →
        mergeHandler env lib now ⟨some keys⟩ =
          ([], .ok (errResponse "Please provide at least 2 PDF files to merge"))) ∧
    (∀ (env : S3Env) (lib : PdfLib) (ts : Nat) (k : String) (pdf : Document) (n : Nat),
      k.isEmpty = false →
      env.get k = .ok ⟨some pdf, n⟩ →
      pdf.length < 2 →
        splitHandler env lib ts ⟨some k⟩ =
          ([.getOb k], .ok (errResponse "PDF must have at least 2 pages to split"))) := by
  constructor
  · intro env lib now keys h
    simp [mergeHandler, h]
  · intro env lib ts k pdf n hk hget hlt
    simp [splitHandler, hk, hget, pdfLoad, hlt]

/-- C6 witness: merging a single key returns 400 with no storage events;
splitting the one-page document returns 400 with only the source read. -/
theorem validation_precedes_storage_work_witness :
    ((["a"] : List String).length < 2 ∧
      mergeHandler sampleEnv sampleLib 5 ⟨some ["a"]⟩ =
        ([], .ok (errResponse "Please provide at least 2 PDF files to merge"))) ∧
    (sampleDocB.length < 2 ∧
      splitHandler sampleEnvOnePage sampleLib 5 ⟨some "a"⟩ =
        ([.getOb "a"], .ok (errResponse "PDF must have at least 2 pages to split"))) :=
  ⟨⟨by decide, validation_precedes_storage_work.1 sampleEnv sampleLib 5 ["a"] (by decide)⟩,
   ⟨by decide, validation_precedes_storage_work.2 sampleEnvOnePage sampleLib 5 "a" sampleDocB 8
      rfl rfl (by decide)⟩⟩

/-- C7: the rotate handler accepts the rotation parameter exactly when its
numeric coercion lands in {90, -90, 180}; any other value — including a
value whose coercion fails (NaN) — makes the handler return the 400
validation response with no fetch, transform, or storage write. -/
theorem rotation_validated_against_closed_set :
    (∀ (strToNum : String → Option ℚ) (angle : JSValue),
      validateRotation strToNum angle = true ↔
        ∃ q, jsToNumber strToNum angle = some q ∧ (q = 90 ∨ q = -90 ∨ q = 180)) ∧
    (∀ (strToNum : String → Option ℚ) (env : S3Env) (lib : PdfLib) (now : Nat)
        (k : String) (rot : JSValue),
      k.isEmpty = false →
      validateRotation strToNum rot = false →
        rotateHandler strToNum env lib now ⟨some k, rot⟩ =
          ([], .ok (errResponse "Invalid rotation. Must be 90, -90, or 180 degrees"))) := by
  constructor
  · intro strToNum angle
    unfold validateRotation
    cases h : jsToNumber strToNum angle with
    | none => simp
    | some q => simp [validAngles]
  · intro strToNum env lib now k rot hk hval
    simp [rotateHandler, hk, hval]

/-- C7 witness: the number 45 is rejected — 400 response, empty trace —
and a non-numeric string coerces to NaN and fails validation. -/
theorem rotation_validated_against_closed_set_witness :
    rotateHandler sampleStrToNum sampleEnv sampleLib 5 ⟨some "a", .num 45⟩ =
      ([], .ok (errResponse "Invalid rotation. Must be 90, -90, or 180 degrees")) ∧
    validateRotation sampleStrToNum (.str "not-a-number") = false :=
  ⟨rotation_validated_against_closed_set.2 sampleStrToNum sampleEnv sampleLib 5 "a"
      (.num 45) rfl (by norm_num [validateRotation, jsToNumber, sampleStrToNum, validAngles]),
   rfl⟩

/-- Every response the merge handler produces carries the CORS headers. -/
theorem mergeHandler_headers (env : S3Env) (lib : PdfLib) (now : Nat) (body : MergeBody)
    (tr : List S3Event) (resp : HttpResponse)
    (h : mergeHandler env lib now body = (tr, .ok resp)) : resp.headers = corsHeaders := by
  unfold mergeHandler at h
  simp only [] at h
  repeat' split at h
  all_goals
    (injection h with h1 h2
     first
      | exact Except.noConfusion h2
      | (injection h2 with h3; exact h3 ▸ rfl))

/-- Every response the split handler produces carries the CORS headers. -/
theorem splitHandler_headers (env : S3Env) (lib : PdfLib) (ts : Nat) (body : SplitBody)
    (tr : List S3Event) (resp : HttpResponse)
    (h : splitHandler env lib ts body = (tr, .ok resp)) : resp.headers = corsHeaders := by
  unfold splitHandler at h
  simp only [] at h
  repeat' split at h
  all_goals
    (injection h with h1 h2
     first
      | exact Except.noConfusion h2
      | (injection h2 with h3; exact h3 ▸ rfl))

/-- Every response the compress handler produces carries the CORS headers. -/
theorem compressHandler_headers (env : S3Env) (lib : PdfLib) (now : Nat) (body : CompressBody)
    (tr : List S3Event) (resp : HttpResponse)
    (h : compressHandler env lib now body = (tr, .ok resp)) : resp.headers = corsHeaders := by
  unfold compressHandler at h
  simp only [] at h
  repeat' split at h
  all_goals
    (injection h with h1 h2
     first
      | exact Except.noConfusion h2
      | (injection h2 with h3; exact h3 ▸ rfl))

/-- Every response the rotate handler produces carries the CORS headers. -/
theorem rotateHandler_headers (strToNum : String → Option ℚ) (env : S3Env) (lib : PdfLib)
    (now : Nat) (body : RotateBody) (tr : List S3Event) (resp : HttpResponse)
    (h : rotateHandler strToNum env lib now body = (tr, .ok resp)) :
    resp.headers = corsHeaders := by
  unfold rotateHandler at h
  simp only [] at h
  repeat' split at h
  all_goals
    (injection h with h1 h2
     first
      | exact Except.noConfusion h2
      | (injection h2 with h3; exact h3 ▸ rfl))

/-- C8: every response produced by every handler — success or error of any
kind the handler itself answers (storage and decode faults are thrown, not
answered, so every answered response is covered) — carries the three fixed
cross-origin headers of `corsHeaders`. -/
theorem all_responses_carry_cors_headers :
    (∀ (env : S3Env) (lib : PdfLib) (now : Nat) (body : MergeBody)
        (tr : List S3Event) (resp : HttpResponse),
      mergeHandler env lib now body = (tr, .ok resp) → resp.headers = corsHeaders) ∧
    (∀ (env : S3Env) (lib : PdfLib) (ts : Nat) (body : SplitBody)
        (tr : List S3Event) (resp : HttpResponse),
      splitHandler env lib ts body = (tr, .ok resp) → resp.headers = corsHeaders) ∧
    (∀ (env : S3Env) (lib : PdfLib) (now : Nat) (body : CompressBody)
        (tr : List S3Event) (resp : HttpResponse),
      compressHandler env lib now body = (tr, .ok resp) → resp.headers = corsHeaders) ∧
    (∀ (strToNum : String → Option ℚ) (env : S3Env) (lib : PdfLib) (now : Nat)
        (body : RotateBody) (tr : List S3Event) (resp : HttpResponse),
      rotateHandler strToNum env lib now body = (tr, .ok resp) → resp.headers = corsHeaders) :=
  ⟨mergeHandler_headers, splitHandler_headers, compressHandler_headers, rotateHandler_headers⟩

/-- C8 witness: the four handlers' validation-failure responses all carry
the CORS headers. -/
theorem all_responses_carry_cors_headers_witness :
    (errResponse "Please provide at least 2 PDF files to merge").headers = corsHeaders ∧
    (errResponse "Please provide a PDF file to split").headers = corsHeaders ∧
    (errResponse "Please provide a PDF file to compress").headers = corsHeaders ∧
    (errResponse "Please provide a PDF file to rotate").headers = corsHeaders :=
  ⟨all_responses_carry_cors_headers.1 sampleEnv sampleLib 5 ⟨none⟩ [] _ rfl,
   all_responses_carry_cors_headers.2.1 sampleEnv sampleLib 5 ⟨none⟩ [] _ rfl,
   all_responses_carry_cors_headers.2.2.1 sampleEnv sampleLib 5 ⟨none⟩ [] _ rfl,
   all_responses_carry_cors_headers.2.2.2 sampleStrToNum sampleEnv sampleLib 5 ⟨none, .num 90⟩
     [] _ rfl⟩

/-- C9: in every handler's upload step, a failed store aborts before the
signed-URL step — the trace holds the attempted write and no signed-URL
event, and the fault propagates — while on a successful store the signed
URL is issued strictly after the write. -/
theorem no_signed_url_without_successful_write :
    (∀ (env : S3Env) (pdfBytes : Blob) (outputKey : String) (e : Fault),
      env.put outputKey pdfBytes = .error e →
        uploadPdfToS3 env pdfBytes outputKey = ([.putOb outputKey pdfBytes], .error e) ∧
        uploadCompressedPdfToS3 env pdfBytes outputKey =
          ([.putOb outputKey pdfBytes], .error e) ∧
        uploadRotatedPdfToS3 env pdfBytes outputKey =
          ([.putOb outputKey pdfBytes], .error e)) ∧
    (∀ (env : S3Env) (pageBytes : Blob) (pageNumber timestamp : Nat) (e : Fault),
      env.put (splitPageKey timestamp pageNumber) pageBytes = .error e →
        uploadPageToS3 env pageBytes pageNumber timestamp =
          ([.putOb (splitPageKey timestamp pageNumber) pageBytes], .error e)) ∧
    (∀ (env : S3Env) (pdfBytes : Blob) (outputKey : String),
      env.put outputKey pdfBytes = .ok () →
        uploadPdfToS3 env pdfBytes outputKey =
          ([.putOb outputKey pdfBytes, .signUrl outputKey], .ok (env.sign outputKey))) := by
  refine ⟨?_, ?_, ?_⟩
  · intro env pdfBytes outputKey e h
    refine ⟨?_, ?_, ?_⟩ <;> simp [uploadPdfToS3, uploadCompressedPdfToS3, uploadRotatedPdfToS3, h]
  · intro env pageBytes pageNumber timestamp e h
    simp [uploadPageToS3, h]
  · intro env pdfBytes outputKey h
    simp [uploadPdfToS3, h]

/-- C9 witness: against the environment whose writes fail, each upload
helper records the attempted write, issues no signed URL, and propagates
the I/O fault. -/
theorem no_signed_url_without_successful_write_witness :
    (uploadPdfToS3 sampleEnvFailPut ⟨some sampleDoc, 10⟩ "k" =
        ([.putOb "k" ⟨some sampleDoc, 10⟩], .error .ioError) ∧
      uploadCompressedPdfToS3 sampleEnvFailPut ⟨some sampleDoc, 10⟩ "k" =
        ([.putOb "k" ⟨some sampleDoc, 10⟩], .error .ioError) ∧
      uploadRotatedPdfToS3 sampleEnvFailPut ⟨some sampleDoc, 10⟩ "k" =
        ([.putOb "k" ⟨some sampleDoc, 10⟩], .error .ioError)) ∧
    uploadPageToS3 sampleEnvFailPut ⟨some sampleDocB, 4⟩ 1 7 =
      ([.putOb "processed/split-7-page-1.pdf" ⟨some sampleDocB, 4⟩], .error .ioError) :=
  ⟨no_signed_url_without_successful_write.1 sampleEnvFailPut ⟨some sampleDoc, 10⟩ "k"
      .ioError rfl,
   no_signed_url_without_successful_write.2.1 sampleEnvFailPut ⟨some sampleDocB, 4⟩ 1 7
      .ioError rfl⟩

/-- C10: a merge request whose body has no `fileKeys` value at all (absent,
null or otherwise falsy) returns the same 400 validation response as one
with fewer than 2 keys — same error text — with no storage access. -/
theorem merge_missing_fileKeys_same_as_too_few :
    ∀ (env : S3Env) (lib : PdfLib) (now : Nat),
      mergeHandler env lib now ⟨none⟩ =
        ([], .ok (errResponse "Please provide at least 2 PDF files to merge")) ∧
      ∀ keys : List String, keys.length < 2 →
        mergeHandler env lib now ⟨some keys⟩ =
          ([], .ok (errResponse "Please provide at least 2 PDF files to merge")) := by
  intro env lib now
  constructor
  · rfl
  · intro keys h
    simp [mergeHandler, h]

/-- C10 witness: with the sample environment, the missing-field request and
the one-key request produce the identical 400 response and empty trace. -/
theorem merge_missing_fileKeys_same_as_too_few_witness :
    mergeHandler sampleEnv sampleLib 5 ⟨none⟩ =
      ([], .ok (errResponse "Please provide at least 2 PDF files to merge")) ∧
    mergeHandler sampleEnv sampleLib 5 ⟨some ["only-one"]⟩ =
      ([], .ok (errResponse "Please provide at least 2 PDF files to merge")) :=
  ⟨(merge_missing_fileKeys_same_as_too_few sampleEnv sampleLib 5).1,
   (merge_missing_fileKeys_same_as_too_few sampleEnv sampleLib 5).2 ["only-one"] (by decide)⟩
